import Mathlib

/-!
Verification of the agent-runtime core in `backend/agent/run.py` (the
class-based `AgentRunner`, `ToolManager`, `MCPManager`, `PromptManager`,
`MessageManager` code). Python values coming from JSON columns are modelled
by `JVal`; Python truthiness by `truthy`; the substring test `sub in s` by
`strContains`; `str.lower()` by `pyLower` (ASCII case folding, which is what
`Char.toLower` implements and what the model-name strings exercise).
External collaborators (billing service, message store, thread-execution
engine, json library) are modelled as oracle inputs.
-/

/-- A JSON-ish Python value as delivered by the database / json.loads. -/
inductive JVal where
  | jnull
  | jbool (b : Bool)
  | jnum (n : Int)
  | jstr (s : String)
  | jarr (elems : List JVal)
  | jobj (fields : List (String × JVal))

/-- Python truthiness of a `JVal` (`bool(v)`). -/
def truthy : JVal → Bool
  | .jnull => false
  | .jbool b => b
  | .jnum n => n != 0
  | .jstr s => s != ""
  | .jarr elems => !elems.isEmpty
  | .jobj fields => !fields.isEmpty

/-- Truthiness of an optional value (`dict.get` returning `None` when absent). -/
def truthyOpt : Option JVal → Bool
  | none => false
  | some v => truthy v

/-- Python's `sub in s` substring test. -/
def strContains (s sub : String) : Bool := decide (sub.data <:+: s.data)

/-- Python's `s.lower()` (ASCII case folding via `Char.toLower`). -/
def pyLower (s : String) : String := ⟨s.data.map Char.toLower⟩

/-- Truthiness of an optional string (`dict.get` of a string field). -/
def pyTruthyStrOpt : Option String → Bool
  | none => false
  | some s => s != ""

/-- The agent-definition mapping (`agent_config` dict) with the keys the
runner reads: `system_prompt`, `agent_id`, `configured_mcps`, `custom_mcps`,
`agentpress_tools`, `is_suna_default`. -/
structure AgentDefinition where
  system_prompt : Option String := none
  agent_id : Option String := none
  configured_mcps : List JVal := []
  custom_mcps : List JVal := []
  agentpress_tools : Option JVal := none
  is_suna_default : Bool := false

/-- An opaque langfuse trace handle. -/
structure TraceHandle where
  id : Nat
deriving DecidableEq

/-- The `AgentConfig` dataclass (run.py lines 61-75). -/
structure AgentConfig where
  thread_id : String
  project_id : String
  stream : Bool
  native_max_auto_continues : Nat := 25
  max_iterations : Nat := 100
  model_name : String := "openai/gpt-5-mini"
  enable_thinking : Option Bool := some false
  reasoning_effort : Option String := some "low"
  enable_context_manager : Bool := true
  agent_config : Option AgentDefinition := none
  trace : Option TraceHandle := none
  is_agent_builder : Option Bool := some false
  target_agent_id : Option String := none

/-- `AgentRunner.setup`'s effect on the config record (run.py lines 759-761):
`if not self.config.trace: self.config.trace = langfuse.trace(...)`.
`fresh` stands for the newly created trace handle. -/
def setup_config (config : AgentConfig) (fresh : TraceHandle) : AgentConfig :=
  match config.trace with
  | none => { config with trace := some fresh }
  | some _ => config

/-- `AgentRunner.get_max_tokens` (run.py lines 862-871). -/
def get_max_tokens (config : AgentConfig) : Option Nat :=
  if strContains (pyLower config.model_name) "sonnet" then some 8192
  else if strContains (pyLower config.model_name) "gpt-4" then some 4096
  else if strContains (pyLower config.model_name) "gemini-2.5-pro" then some 64000
  else if strContains (pyLower config.model_name) "kimi-k2" then some 8192
  else none

/-- The inline closing-marker scan applied to streamed assistant text
(run.py lines 1033-1041): the chain of `in` tests with fixed priority
ask, complete, web-browser-takeover. Returns the `xml_tool` name assigned
to `last_tool_call`, or `none` when no marker is present. -/
def detect_terminal_marker (assistant_text : String) : Option String :=
  if strContains assistant_text "</ask>" || strContains assistant_text "</complete>" ||
      strContains assistant_text "</web-browser-takeover>" then
    if strContains assistant_text "</ask>" then some "ask"
    else if strContains assistant_text "</complete>" then some "complete"
    else if strContains assistant_text "</web-browser-takeover>" then some "web-browser-takeover"
    else none
  else none

/-- The fixed list of known tool names in
`AgentRunner._get_disabled_tools_from_config` (run.py lines 835-841). -/
def all_tools : List String :=
  ["sb_shell_tool", "sb_files_tool", "sb_deploy_tool", "sb_expose_tool",
   "web_search_tool", "sb_vision_tool", "sb_presentation_tool", "sb_image_edit_tool",
   "sb_sheets_tool", "sb_web_dev_tool", "data_providers_tool", "browser_tool",
   "agent_config_tool", "mcp_search_tool", "credential_profile_tool",
   "workflow_tool", "trigger_tool"]

/-- The inner `is_tool_enabled` helper (run.py lines 822-832), with Python
truthiness applied at the call site `if not is_tool_enabled(tool_name)`. -/
def is_tool_enabled (raw_tools : List (String × JVal)) (tool_name : String) : Bool :=
  match List.lookup tool_name raw_tools with
  | none => true
  | some (.jbool b) => b
  | some (.jobj fields) =>
    match List.lookup "enabled" fields with
    | none => true
    | some v => truthy v
  | some _ => true

/-- `AgentRunner._get_disabled_tools_from_config` (run.py lines 803-853),
as a function of `self.config.agent_config`. -/
def get_disabled_tools_from_config (agent_config : Option AgentDefinition) : List String :=
  match agent_config with
  | none => []
  | some cfg =>
    match cfg.agentpress_tools with
    | none => []
    | some raw =>
      match raw with
      | .jobj raw_tools =>
        if cfg.is_suna_default && raw_tools.isEmpty then []
        else
          let disabled := all_tools.filter (fun t => !(is_tool_enabled raw_tools t))
          if disabled.contains "sb_presentation_tool" then
            disabled ++ ["sb_presentation_outline_tool", "sb_presentation_tool_v2"]
          else disabled
      | _ => []

/-- External inputs of `PromptManager.build_system_prompt`: the bundled
prompt texts and example file, the knowledge-base RPC result, the MCP
schema listing built inside the try block, and the five `strftime` outputs. -/
structure PromptEnv where
  default_prompt : String
  builder_prompt : String
  sample_response : String
  kb_data : Option String := none
  mcp_listing : String := ""
  now_date : String
  now_time : String
  now_year : String
  now_month : String
  now_day : String

/-- A `{role, content}` message dict. -/
structure SysMessage where
  role : String
  content : String

/-- The `<sample_assistant_response>` block appended for non-Anthropic
models (run.py line 462). -/
def sample_block (sample_response : String) : String :=
  "\n\n <sample_assistant_response>" ++ sample_response ++ "</sample_assistant_response>"

/-- The knowledge-base section appended when the agent KB RPC returns data
(run.py lines 486-495). -/
def kb_section (data : String) : String :=
  "\n\n=== AGENT KNOWLEDGE BASE ===\n" ++
  "NOTICE: The following is your specialized knowledge base. This information should be considered authoritative for your responses and should take precedence over general knowledge when relevant.\n\n" ++
  data ++
  "\n\n=== END AGENT KNOWLEDGE BASE ===\n\n" ++
  "IMPORTANT: Always reference and utilize the knowledge base information above when it\x27s relevant to user queries. This knowledge is specific to your role and capabilities."

/-- The fixed head of the MCP section (run.py lines 506-516). -/
def mcp_header : String :=
  "\n\n--- MCP Tools Available ---\n" ++
  "You have access to external MCP (Model Context Protocol) server tools.\n" ++
  "MCP tools can be called directly using their native function names in the standard function calling format:\n" ++
  "<function_calls>\n" ++
  "<invoke name=\"{tool_name}\">\n" ++
  "<parameter name=\"param1\">value1</parameter>\n" ++
  "<parameter name=\"param2\">value2</parameter>\n" ++
  "</invoke>\n" ++
  "</function_calls>\n\n" ++
  "Available MCP tools:\n"

/-- The fixed tail of the MCP section (run.py lines 536-547). -/
def mcp_critical : String :=
  "\n🚨 CRITICAL MCP TOOL RESULT INSTRUCTIONS 🚨\n" ++
  "When you use ANY MCP (Model Context Protocol) tools:\n" ++
  "1. ALWAYS read and use the EXACT results returned by the MCP tool\n" ++
  "2. For search tools: ONLY cite URLs, sources, and information from the actual search results\n" ++
  "3. For any tool: Base your response entirely on the tool\x27s output - do NOT add external information\n" ++
  "4. DO NOT fabricate, invent, hallucinate, or make up any sources, URLs, or data\n" ++
  "5. If you need more information, call the MCP tool again with different parameters\n" ++
  "6. When writing reports/summaries: Reference ONLY the data from MCP tool results\n" ++
  "7. If the MCP tool doesn\x27t return enough information, explicitly state this limitation\n" ++
  "8. Always double-check that every fact, URL, and reference comes from the MCP tool output\n" ++
  "\nIMPORTANT: MCP tool results are your PRIMARY and ONLY source of truth for external data!\n" ++
  "NEVER supplement MCP results with your training data or make assumptions beyond what the tools provide.\n"

/-- The date/time block appended last (run.py lines 551-558), with the
formatted `strftime` outputs taken from the environment. -/
def datetime_info (env : PromptEnv) : String :=
  "\n\n=== CURRENT DATE/TIME INFORMATION ===\n" ++
  "Today\x27s date: " ++ env.now_date ++ "\n" ++
  "Current UTC time: " ++ env.now_time ++ "\n" ++
  "Current year: " ++ env.now_year ++ "\n" ++
  "Current month: " ++ env.now_month ++ "\n" ++
  "Current day: " ++ env.now_day ++ "\n" ++
  "Use this information for any time-sensitive tasks, research, or when current date/time context is needed.\n"

/-- `PromptManager.build_system_prompt` (run.py lines 373-623, class-based
version): base selection, sample-response append for non-Anthropic models,
optional knowledge-base section, optional MCP section, date/time block.
`mcp_wrapper_present`/`mcp_wrapper_initialized` model
`mcp_wrapper_instance and mcp_wrapper_instance._initialized`;
`client_present` models the `client` argument being non-None. -/
def build_system_prompt (env : PromptEnv) (model_name : String)
    (agent_config : Option AgentDefinition) (is_agent_builder : Bool)
    (mcp_wrapper_present : Bool) (mcp_wrapper_initialized : Bool)
    (client_present : Bool) : SysMessage :=
  let default_system_content := env.default_prompt
  let default_system_content :=
    if strContains (pyLower model_name) "anthropic" then default_system_content
    else default_system_content ++ sample_block env.sample_response
  let system_content :=
    if is_agent_builder then env.builder_prompt
    else
      match agent_config with
      | some cfg =>
        match cfg.system_prompt with
        | some sp => if sp != "" then sp.trim else default_system_content
        | none => default_system_content
      | none => default_system_content
  let system_content :=
    if client_present &&
        (match agent_config with
         | some cfg => pyTruthyStrOpt cfg.agent_id
         | none => false) then
      match env.kb_data with
      | some d => if d != "" && d.trim != "" then system_content ++ kb_section d else system_content
      | none => system_content
    else system_content
  let system_content :=
    if (match agent_config with
        | some cfg => !cfg.configured_mcps.isEmpty || !cfg.custom_mcps.isEmpty
        | none => false) && mcp_wrapper_present && mcp_wrapper_initialized then
      system_content ++ (mcp_header ++ env.mcp_listing ++ mcp_critical)
    else system_content
  ⟨"system", system_content ++ datetime_info env⟩

/-- A persisted message content column as read back by the runner, abstracted
over the json library: `sdict` is content already delivered as a dict,
`sstr parsed` is string content together with its `json.loads` outcome
(`none` when `json.loads` raises), `sother` is content of any other type
(on which the subsequent attribute accesses raise). -/
inductive StoredContent where
  | sdict (fields : List (String × JVal))
  | sstr (parsed : Option JVal)
  | sother

/-- The value the code works with after the dict-or-`json.loads` step, or
`none` when that step (or the later `.get`) raises. -/
def parseContent : StoredContent → Option JVal
  | .sdict fields => some (.jobj fields)
  | .sstr parsed => parsed
  | .sother => none

/-- One element of the temporary message content list, keeping the
structure of the dicts built in `MessageManager.build_temporary_message`. -/
inductive TempBlock where
  | browser_state_text (fields : List (String × JVal))
  | browser_screenshot_url (url : JVal)
  | browser_screenshot_b64 (b64 : JVal)
  | image_context_text (file_path : JVal)
  | image_context_image (mime_type b64 : JVal)

/-- The `{role: "user", content: [...]}` temporary message. -/
structure TempMessage where
  role : String
  content : List TempBlock

/-- Result of `build_temporary_message`: the optional temporary message and
whether the `image_context` row was deleted. -/
structure TempResult where
  message : Option TempMessage
  image_context_deleted : Bool

/-- The browser-state section of `MessageManager.build_temporary_message`
(run.py lines 636-678): screenshot fields are stripped for the text block,
and an image block is added for Gemini/Anthropic/OpenAI models, preferring
the hosted URL over inline base64. Exceptions (non-object content) skip the
section. -/
def browserBlocks (model_name : String) (row : Option StoredContent) : List TempBlock :=
  match row with
  | none => []
  | some sc =>
    match parseContent sc with
    | some (.jobj fields) =>
      let screenshot_base64 := List.lookup "screenshot_base64" fields
      let screenshot_url := List.lookup "image_url" fields
      let browser_state_text :=
        fields.filter (fun kv => kv.1 != "screenshot_base64" && kv.1 != "image_url")
      let textBlocks :=
        if browser_state_text.isEmpty then []
        else [TempBlock.browser_state_text browser_state_text]
      let imageBlocks :=
        if strContains (pyLower model_name) "gemini" ||
            strContains (pyLower model_name) "anthropic" ||
            strContains (pyLower model_name) "openai" then
          if truthyOpt screenshot_url then
            [TempBlock.browser_screenshot_url (screenshot_url.getD .jnull)]
          else if truthyOpt screenshot_base64 then
            [TempBlock.browser_screenshot_b64 (screenshot_base64.getD .jnull)]
          else []
        else []
      textBlocks ++ imageBlocks
    | _ => []

/-- The image-context section of `MessageManager.build_temporary_message`
(run.py lines 684-707): blocks are added only when both `base64` and
`mime_type` are truthy, and the row delete runs after that whenever the
preceding accesses did not raise (i.e. whenever the content resolved to a
dict). Returns the blocks and the deleted flag. -/
def imageContextBlocks (row : Option StoredContent) : List TempBlock × Bool :=
  match row with
  | none => ([], false)
  | some sc =>
    match parseContent sc with
    | some (.jobj fields) =>
      let base64_image := List.lookup "base64" fields
      let mime_type := List.lookup "mime_type" fields
      let file_path := (List.lookup "file_path" fields).getD (.jstr "unknown file")
      let blocks :=
        if truthyOpt base64_image && truthyOpt mime_type then
          [TempBlock.image_context_text file_path,
           TempBlock.image_context_image (mime_type.getD .jnull) (base64_image.getD .jnull)]
        else []
      (blocks, true)
    | _ => ([], false)

/-- `MessageManager.build_temporary_message` (run.py lines 633-751):
assembles the browser-state and image-context blocks and returns a user
message when any block was produced, `None` otherwise. -/
def build_temporary_message (model_name : String)
    (browser_row image_row : Option StoredContent) : TempResult :=
  let bblocks := browserBlocks model_name browser_row
  let iresult := imageContextBlocks image_row
  let temp_message_content_list := bblocks ++ iresult.1
  ⟨if temp_message_content_list.isEmpty then none
    else some ⟨"user", temp_message_content_list⟩,
   iresult.2⟩

/-- The content list of an optional temporary message. -/
def tempContentOf : Option TempMessage → List TempBlock
  | none => []
  | some m => m.content

/-- Whether a block was derived from the `image_context` row. -/
def isImageContextBlock : TempBlock → Bool
  | .image_context_text _ => true
  | .image_context_image _ _ => true
  | _ => false

/-- The `content` field of an assistant chunk, abstracted over the json
library: `parsed v` is a dict content, or a string content that
`json.loads` turned into `v`; `unparsed` is a string content on which
`json.loads` raises `JSONDecodeError`. -/
inductive AsstContent where
  | parsed (v : JVal)
  | unparsed

/-- A streamed chunk dict, partitioned by its `type` field. For a status
chunk, `statusField` is its `status` entry, `metadata` the metadata after
the optional `json.loads` (`none` when that parse raises; an absent
metadata key is `some (.jobj [])`, the `{}` default) and `contentVal` the
`content` entry likewise. `passthrough` covers every other chunk type. -/
inductive Chunk where
  | status (statusField : Option String) (metadata : Option JVal) (contentVal : Option JVal)
  | assistant (hasContentKey : Bool) (content : AsstContent)
  | passthrough

/-- The per-stream signal state reset at the top of every iteration
(run.py lines 987-990). -/
structure StreamState where
  last_tool_call : Option JVal := none
  agent_should_terminate : Bool := false
  error_detected : Bool := false

/-- The error-chunk test of run.py line 995:
`chunk.get('type') == 'status' and chunk.get('status') == 'error'`. -/
def isErrChunk : Chunk → Bool
  | .status (some s) _ _ => s == "error"
  | _ => false

/-- The `assistant_content_json.get('content', '')` step followed by the
`isinstance(assistant_text, str)` / string-concat guards: `some t` when the
marker scan runs on `t`, `none` when the text is not a string (the raised
`TypeError` is swallowed). -/
def assistantTextOf (fields : List (String × JVal)) : Option String :=
  match List.lookup "content" fields with
  | none => some ""
  | some (.jstr t) => some t
  | some _ => none

/-- The non-error part of the chunk inspection (run.py lines 1000-1046):
termination metadata on status chunks, and the closing-marker scan on
assistant text. Only `last_tool_call` and `agent_should_terminate` are
touched. -/
def updateSignals (s : StreamState) (c : Chunk) : StreamState :=
  match c with
  | .status _ metadata contentVal =>
    match metadata with
    | some (.jobj mf) =>
      if truthyOpt (List.lookup "agent_should_terminate" mf) then
        let s := { s with agent_should_terminate := true }
        match contentVal with
        | some (.jobj cf) =>
          if truthyOpt (List.lookup "function_name" cf) then
            { s with last_tool_call := List.lookup "function_name" cf }
          else if truthyOpt (List.lookup "xml_tag_name" cf) then
            { s with last_tool_call := List.lookup "xml_tag_name" cf }
          else s
        | _ => s
      else s
    | _ => s
  | .assistant hasContentKey content =>
    if hasContentKey then
      match content with
      | .parsed (.jobj fields) =>
        match assistantTextOf fields with
        | some t =>
          match detect_terminal_marker t with
          | some tool => { s with last_tool_call := some (.jstr tool) }
          | none => s
        | none => s
      | _ => s
    else s
  | .passthrough => s

/-- Processing of one streamed chunk: the error-chunk branch sets
`error_detected` and relays the chunk unchanged (`continue`); every other
chunk is inspected by `updateSignals` and then relayed. -/
def stepChunk (s : StreamState) (c : Chunk) : StreamState :=
  if isErrChunk c then { s with error_detected := true }
  else updateSignals s c

/-- The Python membership test
`last_tool_call in ['ask', 'complete', 'web-browser-takeover']`. -/
def isTerminalTool : Option JVal → Bool
  | some (.jstr t) => ["ask", "complete", "web-browser-takeover"].contains t
  | _ => false

/-- The value returned by `thread_manager.run_thread`: an error-shaped (or
other) dict, an async-iterable stream of chunks — `streamFailure = some m`
when consuming the stream raises after those chunks with message `m` — a
value that is neither, or the call itself raising. -/
inductive RunThreadResult where
  | rdict (statusField : Option String)
  | rstream (chunks : List Chunk) (streamFailure : Option String)
  | rother
  | rraise (msg : String)

/-- The external observations of one loop iteration: the billing check
result, the type of the most recent persisted assistant/tool/user message
(`none` when there is none), and the `run_thread` outcome. -/
structure IterEnv where
  billing_can_run : Bool
  billing_message : String
  last_message_type : Option String
  response : RunThreadResult

/-- A status chunk synthesized by the loop itself. -/
structure StatusChunk where
  ty : String
  status : String
  message : String

/-- One item yielded by the `run` generator: a relayed stream chunk, a
loop-synthesized status chunk, or the yielded error-shaped `run_thread`
response dict. -/
inductive OutChunk where
  | relay (c : Chunk)
  | statusOut (s : StatusChunk)
  | respOut (statusField : Option String)

/-- Why the loop ended. -/
inductive StopReason where
  | limit
  | billing
  | lastAssistant
  | errorResponse
  | invalidResponse
  | errorChunk
  | streamRaise
  | threadRaise
  | terminal
deriving DecidableEq

/-- How one execution of the loop body ends: a terminal break / flag
(`stop`, with its yielded items and the number of `run_thread` calls made),
or a normal continuation to the next iteration (`next`, after one
`run_thread` call). -/
inductive IterOutcome where
  | stop (outs : List OutChunk) (calls : Nat) (reason : StopReason)
  | next (outs : List OutChunk)

/-- One execution of the `while` body of `AgentRunner.run` (run.py lines
897-1144): billing check, last-message check, `run_thread` call, response
shape dispatch, stream consumption with drain-then-stop error handling,
and the terminal-tool decision. -/
def runIteration (env : IterEnv) : IterOutcome :=
  if env.billing_can_run then
    if env.last_message_type = some "assistant" then
      .stop [] 0 .lastAssistant
    else
      match env.response with
      | .rdict (some st) =>
        if st = "error" then .stop [.respOut (some st)] 1 .errorResponse
        else .stop [] 1 .invalidResponse
      | .rdict none => .stop [] 1 .invalidResponse
      | .rother => .stop [] 1 .invalidResponse
      | .rraise m =>
        .stop [.statusOut ⟨"status", "error", "Error running thread: " ++ m⟩] 1 .threadRaise
      | .rstream chunks streamFailure =>
        let st := chunks.foldl stepChunk {}
        let relays := chunks.map OutChunk.relay
        match streamFailure with
        | some m =>
          .stop (relays ++
            [.statusOut ⟨"status", "error", "Error during response streaming: " ++ m⟩]) 1 .streamRaise
        | none =>
          if st.error_detected then .stop relays 1 .errorChunk
          else if st.agent_should_terminate || isTerminalTool st.last_tool_call then
            .stop relays 1 .terminal
          else .next relays
  else
    .stop [.statusOut ⟨"status", "stopped", "Billing limit reached: " ++ env.billing_message⟩]
      0 .billing

/-- The aggregate outcome of the loop from some iteration on: items yielded,
`run_thread` calls made, loop-body executions, and why it stopped. -/
structure RunResult where
  outs : List OutChunk
  threadCalls : Nat
  iters : Nat
  stop : StopReason

/-- The `while continue_execution and iteration_count < max_iterations`
loop of `AgentRunner.run`, from the iteration with index `idx` (0-based)
with `fuel = max_iterations - idx` body executions still permitted.
`envs i` gives the external observations of iteration `i`. -/
def runFrom (envs : Nat → IterEnv) : Nat → Nat → RunResult
  | _, 0 => ⟨[], 0, 0, .limit⟩
  | idx, fuel + 1 =>
    match runIteration (envs idx) with
    | .stop outs calls reason => ⟨outs, calls, 1, reason⟩
    | .next outs =>
      let rest := runFrom envs (idx + 1) fuel
      ⟨outs ++ rest.outs, 1 + rest.threadCalls, 1 + rest.iters, rest.stop⟩

/-- The whole loop of one run with `max_iterations = maxIter`. -/
def runLoop (maxIter : Nat) (envs : Nat → IterEnv) : RunResult :=
  runFrom envs 0 maxIter

/-- Whether a yielded item is a relayed engine chunk (as opposed to one
synthesized by the loop). -/
def OutChunk.isRelay : OutChunk → Bool
  | .relay _ => true
  | _ => false

/-- Whether a yielded item is a terminal status chunk: a loop-synthesized
status chunk with status stopped/error, the yielded error-shaped response
dict, or a relayed error status chunk. -/
def isTerminalStatusOut : OutChunk → Bool
  | .statusOut s => s.status == "stopped" || s.status == "error"
  | .respOut (some s) => s == "error"
  | .respOut none => false
  | .relay c => isErrChunk c

theorem strContains_append_right (s t p : String) (h : strContains s p = true) :
    strContains (s ++ t) p = true := by
  simp only [strContains, decide_eq_true_eq] at h ⊢
  rw [String.data_append]
  exact h.trans (List.prefix_append _ _).isInfix

theorem strContains_append_self (s p : String) : strContains (s ++ p) p = true := by
  simp only [strContains, decide_eq_true_eq]
  rw [String.data_append]
  exact (List.suffix_append _ _).isInfix

theorem updateSignals_error_detected (s : StreamState) (c : Chunk) :
    (updateSignals s c).error_detected = s.error_detected := by
  unfold updateSignals
  cases c <;> (repeat' split) <;> rfl

theorem stepChunk_error_detected (s : StreamState) (c : Chunk) :
    (stepChunk s c).error_detected = (s.error_detected || isErrChunk c) := by
  unfold stepChunk
  split
  next h => simp [h]
  next h => simp [updateSignals_error_detected, h]

theorem foldl_error_detected (chunks : List Chunk) (s : StreamState)
    (h : (chunks.foldl stepChunk s).error_detected = true) :
    s.error_detected = true ∨ ∃ c ∈ chunks, isErrChunk c = true := by
  induction chunks generalizing s with
  | nil => exact Or.inl h
  | cons c cs ih =>
    simp only [List.foldl_cons] at h
    rcases ih _ h with h' | ⟨c', hc', he⟩
    · rw [stepChunk_error_detected] at h'
      rcases (Bool.or_eq_true _ _).mp h' with h'' | h''
      · exact Or.inl h''
      · exact Or.inr ⟨c, List.mem_cons_self _ _, h''⟩
    · exact Or.inr ⟨c', List.mem_cons_of_mem _ hc', he⟩

theorem runFrom_iters_le (envs : Nat → IterEnv) (fuel idx : Nat) :
    (runFrom envs idx fuel).iters ≤ fuel := by
  induction fuel generalizing idx with
  | zero => simp [runFrom]
  | succ n ih =>
    simp only [runFrom]
    split
    · exact Nat.le_add_left 1 n
    · have := ih (idx + 1)
      simp only
      omega

theorem runIteration_ne_limit (env : IterEnv) (outs : List OutChunk) (calls : Nat) :
    runIteration env ≠ .stop outs calls .limit := by
  unfold runIteration
  intro h
  repeat' (first | split at h | (simp only [] at h))
  all_goals simp_all

theorem runIteration_next_relays (env : IterEnv) (outs : List OutChunk)
    (h : runIteration env = .next outs) :
    ∀ o ∈ outs, o.isRelay = true := by
  have hex : ∃ chunks : List Chunk, outs = chunks.map OutChunk.relay := by
    unfold runIteration at h
    repeat' (first | split at h | (simp only [] at h))
    all_goals (try exact IterOutcome.noConfusion h)
    all_goals (injection h with h1; exact ⟨_, h1.symm⟩)
  obtain ⟨chunks, rfl⟩ := hex
  intro o ho
  rcases List.mem_map.mp ho with ⟨c, -, rfl⟩
  rfl

theorem runFrom_limit_relays (envs : Nat → IterEnv) (fuel idx : Nat)
    (h : (runFrom envs idx fuel).stop = .limit) :
    ∀ o ∈ (runFrom envs idx fuel).outs, o.isRelay = true := by
  induction fuel generalizing idx with
  | zero => simp [runFrom]
  | succ n ih =>
    simp only [runFrom] at h ⊢
    cases hiter : runIteration (envs idx) with
    | stop o c r =>
      simp only [hiter] at h ⊢
      exact absurd (h ▸ hiter) (runIteration_ne_limit _ _ _)
    | next o =>
      simp only [hiter] at h ⊢
      intro x hx
      rcases List.mem_append.mp hx with hx | hx
      · exact runIteration_next_relays _ _ hiter x hx
      · exact ih (idx + 1) h x hx

theorem runIteration_error_stop_yields (env : IterEnv) (outs : List OutChunk)
    (calls : Nat) (reason : StopReason)
    (h : runIteration env = .stop outs calls reason)
    (hr : reason = .billing ∨ reason = .errorResponse ∨ reason = .threadRaise ∨
      reason = .streamRaise ∨ reason = .errorChunk) :
    ∃ o ∈ outs, isTerminalStatusOut o = true := by
  unfold runIteration at h
  repeat' (first | split at h | (simp only [] at h))
  all_goals (try exact IterOutcome.noConfusion h)
  all_goals (injection h with h1 h2 h3; subst h1; subst h3)
  all_goals subst_vars
  all_goals (try (rcases hr with hr | hr | hr | hr | hr <;> exact StopReason.noConfusion hr))
  · exact ⟨_, List.mem_cons_self _ _, rfl⟩
  · exact ⟨_, List.mem_cons_self _ _, rfl⟩
  · exact ⟨_, List.mem_append_right _ (List.mem_cons_self _ _), rfl⟩
  · rcases foldl_error_detected _ _ (by assumption) with hfalse | ⟨c, hc, he⟩
    · simp at hfalse
    · exact ⟨OutChunk.relay c, List.mem_map_of_mem _ hc, by simp [isTerminalStatusOut, he]⟩
  · exact ⟨_, List.mem_cons_self _ _, rfl⟩

theorem runFrom_error_stop_yields (envs : Nat → IterEnv) (fuel idx : Nat)
    (h : (runFrom envs idx fuel).stop = .billing ∨
      (runFrom envs idx fuel).stop = .errorResponse ∨
      (runFrom envs idx fuel).stop = .threadRaise ∨
      (runFrom envs idx fuel).stop = .streamRaise ∨
      (runFrom envs idx fuel).stop = .errorChunk) :
    ∃ o ∈ (runFrom envs idx fuel).outs, isTerminalStatusOut o = true := by
  induction fuel generalizing idx with
  | zero =>
    rcases h with h | h | h | h | h <;> exact StopReason.noConfusion h
  | succ n ih =>
    simp only [runFrom] at h ⊢
    cases hiter : runIteration (envs idx) with
    | stop o c r =>
      simp only [hiter] at h ⊢
      exact runIteration_error_stop_yields _ _ _ _ hiter h
    | next o =>
      simp only [hiter] at h ⊢
      obtain ⟨x, hx, hxt⟩ := ih (idx + 1) h
      exact ⟨x, List.mem_append_right _ hx, hxt⟩

/-- C4: `get_max_tokens` is a pure function of the model name using
case-insensitive substring matching checked in the order sonnet, gpt-4,
gemini-2.5-pro, kimi-k2, first match winning; "claude-3-sonnet" maps to
8192, "gpt-4-turbo" to 4096, "gemini-2.5-pro-exp" to 64000,
"anthropic/kimi-k2" to 8192, and a model matching none of the four
substrings (e.g. "gpt-5-mini") to `none`. -/
theorem get_max_tokens_model_mapping (config : AgentConfig) :
    (strContains (pyLower config.model_name) "sonnet" = true →
      get_max_tokens config = some 8192) ∧
    (strContains (pyLower config.model_name) "sonnet" = false →
      strContains (pyLower config.model_name) "gpt-4" = true →
      get_max_tokens config = some 4096) ∧
    (strContains (pyLower config.model_name) "sonnet" = false →
      strContains (pyLower config.model_name) "gpt-4" = false →
      strContains (pyLower config.model_name) "gemini-2.5-pro" = true →
      get_max_tokens config = some 64000) ∧
    (strContains (pyLower config.model_name) "sonnet" = false →
      strContains (pyLower config.model_name) "gpt-4" = false →
      strContains (pyLower config.model_name) "gemini-2.5-pro" = false →
      strContains (pyLower config.model_name) "kimi-k2" = true →
      get_max_tokens config = some 8192) ∧
    (strContains (pyLower config.model_name) "sonnet" = false →
      strContains (pyLower config.model_name) "gpt-4" = false →
      strContains (pyLower config.model_name) "gemini-2.5-pro" = false →
      strContains (pyLower config.model_name) "kimi-k2" = false →
      get_max_tokens config = none) ∧
    (∀ other : AgentConfig, other.model_name = config.model_name →
      get_max_tokens other = get_max_tokens config) ∧
    get_max_tokens { thread_id := "t", project_id := "p", stream := true, model_name := "claude-3-sonnet" } = some 8192 ∧
    get_max_tokens { thread_id := "t", project_id := "p", stream := true, model_name := "gpt-4-turbo" } = some 4096 ∧
    get_max_tokens { thread_id := "t", project_id := "p", stream := true, model_name := "gemini-2.5-pro-exp" } = some 64000 ∧
    get_max_tokens { thread_id := "t", project_id := "p", stream := true, model_name := "anthropic/kimi-k2" } = some 8192 ∧
    get_max_tokens { thread_id := "t", project_id := "p", stream := true, model_name := "gpt-5-mini" } = none := by
  refine ⟨?_, ?_, ?_, ?_, ?_, ?_, by decide, by decide, by decide, by decide, by decide⟩
  · intro h1
    simp [get_max_tokens, h1]
  · intro h1 h2
    simp [get_max_tokens, h1, h2]
  · intro h1 h2 h3
    simp [get_max_tokens, h1, h2, h3]
  · intro h1 h2 h3 h4
    simp [get_max_tokens, h1, h2, h3, h4]
  · intro h1 h2 h3 h4
    simp [get_max_tokens, h1, h2, h3, h4]
  · intro other h
    simp [get_max_tokens, h]

/-- Witness for C4: the first conjunct applied at a concrete config whose
model name contains "sonnet". -/
theorem get_max_tokens_model_mapping_witness :
    get_max_tokens { thread_id := "t", project_id := "p", stream := true, model_name := "x-Sonnet-y" } = some 8192 :=
  (get_max_tokens_model_mapping _).1 (by decide)

/-- C3: for assistant text containing at least one of the closing markers,
the last-tool-call name is set by the fixed priority ask, complete,
web-browser-takeover; "a</ask>b</complete>" resolves to ask, and text with
"</complete>" but without "</ask>" resolves to complete. The fourth
conjunct ties the scan to the stream-state update performed by the loop. -/
theorem terminal_marker_priority (assistant_text : String) :
    (strContains assistant_text "</ask>" = true →
      detect_terminal_marker assistant_text = some "ask") ∧
    (strContains assistant_text "</ask>" = false →
      strContains assistant_text "</complete>" = true →
      detect_terminal_marker assistant_text = some "complete") ∧
    (strContains assistant_text "</ask>" = false →
      strContains assistant_text "</complete>" = false →
      strContains assistant_text "</web-browser-takeover>" = true →
      detect_terminal_marker assistant_text = some "web-browser-takeover") ∧
    (∀ (s : StreamState) (tool : String),
      detect_terminal_marker assistant_text = some tool →
      (updateSignals s
        (.assistant true (.parsed (.jobj [("content", .jstr assistant_text)])))).last_tool_call
        = some (.jstr tool)) ∧
    detect_terminal_marker "a</ask>b</complete>" = some "ask" := by
  refine ⟨?_, ?_, ?_, ?_, by decide⟩
  · intro h1
    simp [detect_terminal_marker, h1]
  · intro h1 h2
    simp [detect_terminal_marker, h1, h2]
  · intro h1 h2 h3
    simp [detect_terminal_marker, h1, h2, h3]
  · intro s tool h
    simp [updateSignals, assistantTextOf, List.lookup, h]

/-- Witness for C3: applied at a concrete fragment containing only the
complete marker. -/
theorem terminal_marker_priority_witness :
    detect_terminal_marker "done</complete>" = some "complete" :=
  (terminal_marker_priority _).2.1 (by decide) (by decide)

/-- C1: on any iteration where the billing check passes and the most recent
persisted assistant/tool/user message has type "assistant", the loop stops
on that iteration with no further output, zero `run_thread` calls on that
iteration and all later ones, and exactly that one loop-body execution. -/
theorem last_assistant_message_stops_run (envs : Nat → IterEnv) (idx fuel : Nat)
    (hfuel : 0 < fuel)
    (hbilling : (envs idx).billing_can_run = true)
    (hlast : (envs idx).last_message_type = some "assistant") :
    runFrom envs idx fuel = ⟨[], 0, 1, .lastAssistant⟩ := by
  cases fuel with
  | zero => exact absurd hfuel (by simp)
  | succ n => simp [runFrom, runIteration, hbilling, hlast]

/-- Witness for C1: a run whose first iteration sees a persisted assistant
message stops at once with no thread-execution call. -/
theorem last_assistant_message_stops_run_witness :
    runFrom (fun _ => ⟨true, "", some "assistant", .rother⟩) 0 100 =
      ⟨[], 0, 1, .lastAssistant⟩ :=
  last_assistant_message_stops_run (fun _ => ⟨true, "", some "assistant", .rother⟩) 0 100
    (by decide) rfl rfl

/-- C2: for every configured `max_iterations = N` the loop executes its
body at most N times, and when the run stops because the limit is reached
every yielded item was a relayed engine chunk — the loop synthesized no
limit-exceeded chunk. -/
theorem iteration_limit_never_exceeded (envs : Nat → IterEnv) (maxIter : Nat) :
    (runLoop maxIter envs).iters ≤ maxIter ∧
    ((runLoop maxIter envs).stop = StopReason.limit →
      ∀ o ∈ (runLoop maxIter envs).outs, o.isRelay = true) :=
  ⟨runFrom_iters_le envs maxIter 0, runFrom_limit_relays envs maxIter 0⟩

/-- Witness for C2: a run that exhausts its three permitted iterations ends
with no synthesized chunk. -/
theorem iteration_limit_never_exceeded_witness :
    (runLoop 3 (fun _ => ⟨true, "", some "user", .rstream [] none⟩)).iters ≤ 3 ∧
    (∀ o ∈ (runLoop 3 (fun _ => ⟨true, "", some "user", .rstream [] none⟩)).outs,
      o.isRelay = true) :=
  ⟨(iteration_limit_never_exceeded _ 3).1, (iteration_limit_never_exceeded _ 3).2 rfl⟩

/-- C5: on any iteration where the billing check rejects with message `m`,
the generator yields exactly the one chunk
`{"type": "status", "status": "stopped", "message": "Billing limit reached: " + m}`
and then ends, with no thread-execution call on that iteration. -/
theorem billing_rejection_yields_single_stop (envs : Nat → IterEnv) (idx fuel : Nat)
    (hfuel : 0 < fuel)
    (hbilling : (envs idx).billing_can_run = false) :
    runFrom envs idx fuel =
      ⟨[.statusOut ⟨"status", "stopped",
          "Billing limit reached: " ++ (envs idx).billing_message⟩], 0, 1, .billing⟩ := by
  cases fuel with
  | zero => exact absurd hfuel (by simp)
  | succ n => simp [runFrom, runIteration, hbilling]

/-- Witness for C5: the billing check rejecting with "quota exceeded" on
iteration 1 produces exactly the expected stopped chunk. -/
theorem billing_rejection_yields_single_stop_witness :
    runFrom (fun _ => ⟨false, "quota exceeded", some "user", .rother⟩) 0 100 =
      ⟨[.statusOut ⟨"status", "stopped", "Billing limit reached: quota exceeded"⟩],
        0, 1, .billing⟩ :=
  billing_rejection_yields_single_stop (fun _ => ⟨false, "quota exceeded", some "user", .rother⟩)
    0 100 (by decide) rfl

/-- C6 counterexample: with billing passing, the last persisted message of
type "user", and `run_thread` returning a value that is neither an
error-shaped dict nor an async-iterable stream, the run stops on an error
path (not the limit, not a terminal tool) after yielding nothing at all —
no status chunk is yielded before the generator ends. -/
theorem error_stop_silent_counterexample :
    (runLoop 100 (fun _ => ⟨true, "", some "user", .rother⟩)).outs = [] ∧
    (runLoop 100 (fun _ => ⟨true, "", some "user", .rother⟩)).stop =
      StopReason.invalidResponse := by
  exact ⟨rfl, rfl⟩

/-- C6 (amended): every stop path through billing rejection, an
error-shaped `run_thread` response, an exception raised by `run_thread` or
by stream consumption, or an error status chunk in the stream yields a
terminal status chunk before the generator ends; but when `run_thread`
returns a value that is neither an error-shaped dict nor an async-iterable
stream — a non-dict non-iterable value, a dict without a status key, or a
dict whose status is not "error" — the loop only sets its error flag, and
the generator ends silently without yielding anything on that iteration. -/
theorem error_stop_chunk_policy (envs : Nat → IterEnv) (maxIter : Nat) :
    (((runLoop maxIter envs).stop = .billing ∨
        (runLoop maxIter envs).stop = .errorResponse ∨
        (runLoop maxIter envs).stop = .threadRaise ∨
        (runLoop maxIter envs).stop = .streamRaise ∨
        (runLoop maxIter envs).stop = .errorChunk) →
      ∃ o ∈ (runLoop maxIter envs).outs, isTerminalStatusOut o = true) ∧
    (∀ idx fuel, 0 < fuel →
      (envs idx).billing_can_run = true →
      (envs idx).last_message_type ≠ some "assistant" →
      ((envs idx).response = .rother ∨
        (envs idx).response = .rdict none ∨
        (∃ st, st ≠ "error" ∧ (envs idx).response = .rdict (some st))) →
      runFrom envs idx fuel = ⟨[], 1, 1, .invalidResponse⟩) := by
  constructor
  · exact runFrom_error_stop_yields envs maxIter 0
  · intro idx fuel hfuel hb hl hr
    cases fuel with
    | zero => exact absurd hfuel (by simp)
    | succ n =>
      rcases hr with hr | hr | ⟨st, hst, hr⟩
      · simp [runFrom, runIteration, hb, hl, hr]
      · simp [runFrom, runIteration, hb, hl, hr]
      · simp [runFrom, runIteration, hb, hl, hr, hst]

/-- Witness for C6 (amended): a billing-rejected run yields a terminal
status chunk, and runs whose response is a non-iterable value, a dict
without a status key, or a dict with a non-error status all end silently. -/
theorem error_stop_chunk_policy_witness :
    (∃ o ∈ (runLoop 5 (fun _ => ⟨false, "m", none, .rother⟩)).outs,
      isTerminalStatusOut o = true) ∧
    runFrom (fun _ => ⟨true, "", none, .rother⟩) 0 5 = ⟨[], 1, 1, .invalidResponse⟩ ∧
    runFrom (fun _ => ⟨true, "", none, .rdict none⟩) 0 5 = ⟨[], 1, 1, .invalidResponse⟩ ∧
    runFrom (fun _ => ⟨true, "", none, .rdict (some "ok")⟩) 0 5 =
      ⟨[], 1, 1, .invalidResponse⟩ :=
  ⟨(error_stop_chunk_policy _ 5).1 (Or.inl rfl),
   (error_stop_chunk_policy _ 5).2 0 5 (by decide) rfl (by decide) (Or.inl rfl),
   (error_stop_chunk_policy _ 5).2 0 5 (by decide) rfl (by decide) (Or.inr (Or.inl rfl)),
   (error_stop_chunk_policy _ 5).2 0 5 (by decide) rfl (by decide)
     (Or.inr (Or.inr ⟨"ok", by decide, rfl⟩))⟩

/-- C8 counterexample: a config constructed without a trace handle is
mutated by `setup`, which assigns its `trace` field — so not every field
of `AgentConfig` is left untouched after construction. -/
theorem config_trace_mutation_counterexample :
    setup_config { thread_id := "t", project_id := "p", stream := true } ⟨0⟩ ≠
      { thread_id := "t", project_id := "p", stream := true } := by
  intro h
  have htr := congrArg AgentConfig.trace h
  simp [setup_config] at htr

/-- C8 (amended): `setup` mutates no field of `AgentConfig` other than the
trace handle: every other field is preserved, a config that already has a
trace is returned unchanged, and an absent trace is assigned the freshly
created handle. The remaining operations of the run read the config but
never produce an updated one. -/
theorem config_frame_condition (config : AgentConfig) (fresh : TraceHandle) :
    (setup_config config fresh).thread_id = config.thread_id ∧
    (setup_config config fresh).project_id = config.project_id ∧
    (setup_config config fresh).stream = config.stream ∧
    (setup_config config fresh).native_max_auto_continues = config.native_max_auto_continues ∧
    (setup_config config fresh).max_iterations = config.max_iterations ∧
    (setup_config config fresh).model_name = config.model_name ∧
    (setup_config config fresh).enable_thinking = config.enable_thinking ∧
    (setup_config config fresh).reasoning_effort = config.reasoning_effort ∧
    (setup_config config fresh).enable_context_manager = config.enable_context_manager ∧
    (setup_config config fresh).agent_config = config.agent_config ∧
    (setup_config config fresh).is_agent_builder = config.is_agent_builder ∧
    (setup_config config fresh).target_agent_id = config.target_agent_id ∧
    (config.trace ≠ none → setup_config config fresh = config) ∧
    (config.trace = none → (setup_config config fresh).trace = some fresh) := by
  cases htr : config.trace with
  | none => simp [setup_config, htr]
  | some t => simp [setup_config, htr]

/-- Witness for C8 (amended): a config that already carries a trace handle
is returned unchanged by setup. -/
theorem config_frame_condition_witness :
    setup_config { thread_id := "t", project_id := "p", stream := true, trace := some ⟨7⟩ } ⟨0⟩ =
      { thread_id := "t", project_id := "p", stream := true, trace := some ⟨7⟩ } :=
  (config_frame_condition _ _).2.2.2.2.2.2.2.2.2.2.2.2.1 (by simp)

/-- C9: a known tool name lands in the disabled list exactly when its
`agentpress_tools` entry resolves to disabled; an absent entry, a
non-bool/non-dict entry, or a dict without `enabled` defaults to enabled; a
bare `false` or `{enabled: false}` entry disables; and the concrete map
`{sb_shell_tool: {enabled: false}, sb_files_tool: true}` yields exactly
`[sb_shell_tool]`. -/
theorem disabled_tools_from_config_spec :
    (∀ (raw_tools : List (String × JVal)) (cfg : AgentDefinition) (t : String),
      cfg.agentpress_tools = some (.jobj raw_tools) →
      t ∈ all_tools →
      ((t ∈ get_disabled_tools_from_config (some cfg) ↔ is_tool_enabled raw_tools t = false) ∧
       (List.lookup t raw_tools = none → is_tool_enabled raw_tools t = true) ∧
       (List.lookup t raw_tools = some (.jbool false) → is_tool_enabled raw_tools t = false) ∧
       (∀ fields, List.lookup t raw_tools = some (.jobj fields) →
         List.lookup "enabled" fields = some (.jbool false) →
         is_tool_enabled raw_tools t = false) ∧
       (∀ fields, List.lookup t raw_tools = some (.jobj fields) →
         List.lookup "enabled" fields = none →
         is_tool_enabled raw_tools t = true) ∧
       (∀ s, List.lookup t raw_tools = some (.jstr s) → is_tool_enabled raw_tools t = true))) ∧
    get_disabled_tools_from_config (some ⟨none, none, [], [],
      some (.jobj [("sb_shell_tool", .jobj [("enabled", .jbool false)]),
                   ("sb_files_tool", .jbool true)]), false⟩) = ["sb_shell_tool"] := by
  constructor
  · intro raw_tools cfg t hat ht
    refine ⟨?_, ?_, ?_, ?_, ?_, ?_⟩
    · unfold get_disabled_tools_from_config
      simp only [hat]
      by_cases hs : (cfg.is_suna_default && raw_tools.isEmpty) = true
      · rw [if_pos hs]
        have hemp : raw_tools = [] := by
          simpa using (Bool.and_eq_true _ _).mp hs |>.2
        subst hemp
        simp [is_tool_enabled, List.lookup]
      · rw [if_neg hs]
        have hdisj : ∀ x ∈ all_tools,
            x ∉ (["sb_presentation_outline_tool", "sb_presentation_tool_v2"] : List String) := by
          decide
        split
        · rw [List.mem_append]
          constructor
          · rintro (hmem | hmem)
            · simpa using (List.mem_filter.mp hmem).2
            · exact absurd hmem (hdisj t ht)
          · intro hdis
            exact Or.inl (List.mem_filter.mpr ⟨ht, by simp [hdis]⟩)
        · constructor
          · intro hmem
            simpa using (List.mem_filter.mp hmem).2
          · intro hdis
            exact List.mem_filter.mpr ⟨ht, by simp [hdis]⟩
    · intro hl
      simp [is_tool_enabled, hl]
    · intro hl
      simp [is_tool_enabled, hl]
    · intro fields hl he
      simp [is_tool_enabled, hl, he, truthy]
    · intro fields hl he
      simp [is_tool_enabled, hl, he]
    · intro s hl
      simp [is_tool_enabled, hl]
  · decide

/-- Witness for C9: the disabled-list membership criterion applied to a
concrete single-entry map. -/
theorem disabled_tools_from_config_spec_witness :
    "sb_shell_tool" ∈ get_disabled_tools_from_config (some ⟨none, none, [], [],
      some (.jobj [("sb_shell_tool", .jbool false)]), false⟩) ↔
    is_tool_enabled [("sb_shell_tool", .jbool false)] "sb_shell_tool" = false :=
  (disabled_tools_from_config_spec.1 _ _ _ rfl (by decide)).1

theorem browserBlocks_not_image (model_name : String) (row : Option StoredContent) :
    ∀ b ∈ browserBlocks model_name row, isImageContextBlock b = false := by
  intro b hb
  unfold browserBlocks at hb
  repeat' (first | split at hb | (simp only [] at hb))
  all_goals simp_all [isImageContextBlock]
  all_goals (rcases hb with rfl | rfl <;> rfl)

/-- C10 counterexample: an `image_context` row whose content is the string
"[]" parses as JSON (to an empty list), yet the row is not deleted — the
attribute access on the parsed non-object raises before the delete, and the
exception is swallowed. -/
theorem image_context_delete_counterexample :
    parseContent (.sstr (some (.jarr []))) = some (.jarr []) ∧
    (build_temporary_message "openai/gpt-5-mini" none
      (some (.sstr (some (.jarr []))))).image_context_deleted = false :=
  ⟨rfl, rfl⟩

/-- C10 (amended): whenever a persisted `image_context` message exists and
its content is a dict or parses as a JSON object, `build_temporary_message`
deletes that row — even when the content lacks base64 image data or a MIME
type, in which case no image-context block is added to the temporary
message. -/
theorem image_context_consumed_spec (model_name : String)
    (browser_row : Option StoredContent) (sc : StoredContent)
    (fields : List (String × JVal))
    (hp : parseContent sc = some (.jobj fields)) :
    (build_temporary_message model_name browser_row (some sc)).image_context_deleted = true ∧
    ((truthyOpt (List.lookup "base64" fields) &&
        truthyOpt (List.lookup "mime_type" fields)) = false →
      ∀ b ∈ tempContentOf (build_temporary_message model_name browser_row (some sc)).message,
        isImageContextBlock b = false) := by
  constructor
  · simp [build_temporary_message, imageContextBlocks, hp]
  · intro hfm b hb
    have hib : imageContextBlocks (some sc) = ([], true) := by
      simp [imageContextBlocks, hp, hfm]
    by_cases hbb : (browserBlocks model_name browser_row).isEmpty = true
    · simp [build_temporary_message, hib, hbb, tempContentOf] at hb
    · simp [build_temporary_message, hib, hbb, tempContentOf] at hb
      exact browserBlocks_not_image _ _ b hb

/-- Witness for C10 (amended): an `image_context` row whose content is an
empty dict is deleted and contributes no block. -/
theorem image_context_consumed_spec_witness :
    (build_temporary_message "gpt" none (some (.sdict []))).image_context_deleted = true ∧
    (∀ b ∈ tempContentOf (build_temporary_message "gpt" none (some (.sdict []))).message,
      isImageContextBlock b = false) :=
  ⟨(image_context_consumed_spec "gpt" none (.sdict []) [] rfl).1,
   (image_context_consumed_spec "gpt" none (.sdict []) [] rfl).2 (by decide)⟩

/-- C7 counterexample: for a non-Anthropic model in agent-builder mode, the
returned system prompt does not contain the sample-assistant-response
block — the block is appended to the default base only, which agent-builder
mode discards. -/
theorem sample_block_builder_counterexample :
    strContains (build_system_prompt ⟨"D", "B", "S", none, "", "d", "t", "y", "m", "w"⟩
        "openai/gpt-5-mini" none true false false false).content
      (sample_block "S") = false := by
  set_option maxRecDepth 8192 in decide

/-- C7 (amended): for every model name not containing "anthropic"
(case-insensitively), the returned system prompt contains the appended
sample-assistant-response block whenever the default base prompt is
selected — that is, when agent-builder mode is off and no non-empty custom
system prompt is configured. When the agent-builder or custom-prompt base
is selected the block is not appended. -/
theorem sample_block_default_base (env : PromptEnv) (model_name : String)
    (agent_config : Option AgentDefinition) (mcpP mcpI client : Bool)
    (hanth : strContains (pyLower model_name) "anthropic" = false)
    (hcp : (match agent_config with
            | some cfg => pyTruthyStrOpt cfg.system_prompt
            | none => false) = false) :
    strContains
      (build_system_prompt env model_name agent_config false mcpP mcpI client).content
      (sample_block env.sample_response) = true := by
  unfold build_system_prompt
  cases agent_config with
  | none =>
    simp only [hanth, Bool.false_eq_true, if_false, Bool.and_false, Bool.false_and]
    exact strContains_append_right _ _ _ (strContains_append_self _ _)
  | some cfg =>
    cases hsp : cfg.system_prompt with
    | none =>
      simp only [hanth, hsp, Bool.false_eq_true, if_false]
      apply strContains_append_right
      repeat' (first
        | exact strContains_append_self _ _
        | apply strContains_append_right
        | split)
    | some sp =>
      have hsp' : (sp != "") = false := by
        simpa [pyTruthyStrOpt, hsp] using hcp
      simp only [hanth, hsp, hsp', Bool.false_eq_true, if_false]
      apply strContains_append_right
      repeat' (first
        | exact strContains_append_self _ _
        | apply strContains_append_right
        | split)

/-- Witness for C7 (amended): a concrete non-Anthropic model with no agent
configuration gets the sample block. -/
theorem sample_block_default_base_witness :
    strContains (build_system_prompt ⟨"D", "B", "S", none, "", "d", "t", "y", "m", "w"⟩
        "openai/gpt-5-mini" none false false false false).content
      (sample_block "S") = true :=
  sample_block_default_base ⟨"D", "B", "S", none, "", "d", "t", "y", "m", "w"⟩
    "openai/gpt-5-mini" none false false false (by decide) (by decide)
